import Mathlib

/-!
Shallow embedding of the VoltDB execution-engine plan-node core:
`AbstractPlanNode` (src/ee/plannodes/abstractplannode.cpp) and the
table-count executor (src/ee/executors/tablecountexecutor.cpp).

Plan nodes form a pointer graph in C++; here tree children are heap
references (`Nat` addresses) resolved through a `Store`, while inline
nodes are owned and therefore nested structurally.  The lazy
output-schema search of `AbstractPlanNode::getOutputSchema` is an
unbounded `while (true)` loop in the source; it is embedded with
explicit fuel, `ResolveResult.outOfFuel` marking a computation that has
not terminated within the given fuel.  The embedding instruments the
search with a trace recording which nodes had their inline-node mapping
consulted and which nodes were moved past as intermediate first-child
hops.
-/

/-- Value types of the engine (subset of `ValueType` in common/types.h). -/
inductive ValueType where
  | tinyint
  | smallint
  | integer
  | bigint
  | double
  | varchar
  | timestamp
  | invalid
  deriving DecidableEq, Repr

def VALUE_TYPE_BIGINT : ValueType := ValueType.bigint

/-- Plan-node type tags (subset of `PlanNodeType`). -/
inductive PlanNodeType where
  | projection
  | tablecount
  | seqscan
  | limit
  | send
  | orderby
  | unionNode
  | invalid
  deriving DecidableEq, Repr

def PLAN_NODE_TYPE_PROJECTION : PlanNodeType := PlanNodeType.projection

/-- An expression as far as schema construction needs it: it produces a
value type and a byte size (`AbstractExpression::getValueType` /
`getValueSize`). -/
structure AbstractExpression where
  valueType : ValueType
  valueSize : Int
  deriving DecidableEq, Repr

/-- One output-column descriptor: an owned expression plus a display
name (`SchemaColumn`). -/
structure SchemaColumn where
  columnName : String
  expression : AbstractExpression
  deriving DecidableEq, Repr

/-- Magic value of `m_validOutputColumnCount` marking a node whose
output schema comes from its inline projection node. -/
def SCHEMA_UNDEFINED_SO_GET_FROM_INLINE_PROJECTION : Int := -1

/-- Magic value of `m_validOutputColumnCount` marking a node whose
output schema comes from its first tree child. -/
def SCHEMA_UNDEFINED_SO_GET_FROM_CHILD : Int := -2

/-- The non-recursive data fields of `AbstractPlanNode`. -/
structure PlanNodeCore where
  planNodeId : Int
  nodeType : PlanNodeType
  isInline : Bool
  validOutputColumnCount : Int
  outputSchema : List SchemaColumn
  childIds : List Int
  parentIds : List Int
  children : List Nat
  deriving DecidableEq, Repr

/-- A plan node: its core fields together with its owned inline-node
mapping `m_inlineNodes`, keyed by node type (an association list
standing for the `std::map`). -/
inductive PlanNode where
  | mk (core : PlanNodeCore) (inlineNodes : List (PlanNodeType × PlanNode))

def PlanNode.core : PlanNode → PlanNodeCore
  | .mk c _ => c

def PlanNode.inlineNodes : PlanNode → List (PlanNodeType × PlanNode)
  | .mk _ l => l

def PlanNode.validOutputColumnCount (n : PlanNode) : Int :=
  n.core.validOutputColumnCount

def PlanNode.outputSchema (n : PlanNode) : List SchemaColumn :=
  n.core.outputSchema

def PlanNode.getPlanNodeType (n : PlanNode) : PlanNodeType :=
  n.core.nodeType

def PlanNode.getPlanNodeId (n : PlanNode) : Int :=
  n.core.planNodeId

def PlanNode.isInline (n : PlanNode) : Bool :=
  n.core.isInline

def PlanNode.children (n : PlanNode) : List Nat :=
  n.core.children

/-- Set the `m_isInline` flag (mutation `inline_node->m_isInline = true`
in `addInlinePlanNode`). -/
def PlanNode.setIsInline : PlanNode → Bool → PlanNode
  | .mk c l, b => .mk { c with isInline := b } l

/-- Insert-or-replace in the type-keyed inline mapping, the semantics of
`m_inlineNodes[type] = node` on a `std::map`. -/
def insertInlineEntry (k : PlanNodeType) (v : PlanNode) :
    List (PlanNodeType × PlanNode) → List (PlanNodeType × PlanNode)
  | [] => [(k, v)]
  | (k', v') :: rest =>
      if k = k' then (k, v) :: rest else (k', v') :: insertInlineEntry k v rest

/-- `AbstractPlanNode::addInlinePlanNode`: store the node under its own
type and mark it inline. -/
def PlanNode.addInlinePlanNode : PlanNode → PlanNode → PlanNode
  | .mk c l, m => .mk c (insertInlineEntry m.getPlanNodeType (m.setIsInline true) l)

def lookupInlineEntry (k : PlanNodeType) :
    List (PlanNodeType × PlanNode) → Option PlanNode
  | [] => none
  | (k', v') :: rest => if k' = k then some v' else lookupInlineEntry k rest

/-- `AbstractPlanNode::getInlinePlanNode`: look up by type, `none`
standing for the NULL returned when no entry exists. -/
def PlanNode.getInlinePlanNode (n : PlanNode) (t : PlanNodeType) : Option PlanNode :=
  lookupInlineEntry t n.inlineNodes

/-- The heap of tree-linked plan nodes: `m_children` pointers are
addresses resolved through the store. -/
def Store : Type := Nat → Option PlanNode

/-- The distinct fatal diagnostics raised by the schema search
(`DEBUG_ASSERT_OR_THROW_OR_CRASH` / `throwFatalLogicErrorStreamed`). -/
inductive FatalMsg where
  | incorrectOutputSchemaSource
  | missingInlineProjectionSchema
  | noValidOutputSchema
  deriving DecidableEq, Repr

/-- Outcome of the fuelled schema search: a resolved column list, a
fatal invariant violation, or fuel exhaustion (the C++ loop has not
terminated within the allotted steps). -/
inductive ResolveResult where
  | ok (schema : List SchemaColumn)
  | fatal (msg : FatalMsg)
  | outOfFuel
  deriving DecidableEq, Repr

def ResolveResult.isFatal : ResolveResult → Bool
  | .fatal _ => true
  | _ => false

/-- Instrumented outcome of the schema search.  `inlineConsulted` lists
every node whose inline-node mapping was looked up during the search;
`intermediates` lists every node from which the cursor moved on to its
first tree child. -/
structure ResolveTrace where
  result : ResolveResult
  inlineConsulted : List PlanNode
  intermediates : List PlanNode

/-- The `while (true)` search loop of `AbstractPlanNode::getOutputSchema`
(abstractplannode.cpp:253-289), entered only for nodes that do not
define their own schema.  Fuel bounds the number of loop iterations. -/
def getOutputSchemaLoop (store : Store) : Nat → PlanNode → ResolveTrace
  | 0, _ => ⟨ResolveResult.outOfFuel, [], []⟩
  | Nat.succ fuel, parent =>
    if parent.validOutputColumnCount = SCHEMA_UNDEFINED_SO_GET_FROM_INLINE_PROJECTION then
      match parent.getInlinePlanNode PLAN_NODE_TYPE_PROJECTION with
      | none => ⟨ResolveResult.fatal FatalMsg.incorrectOutputSchemaSource, [parent], []⟩
      | some schemaDefiner =>
          if 0 ≤ schemaDefiner.validOutputColumnCount then
            ⟨ResolveResult.ok schemaDefiner.outputSchema, [parent], []⟩
          else
            ⟨ResolveResult.fatal FatalMsg.missingInlineProjectionSchema, [parent], []⟩
    else if parent.validOutputColumnCount = SCHEMA_UNDEFINED_SO_GET_FROM_CHILD then
      match parent.children with
      | [] => ⟨ResolveResult.fatal FatalMsg.incorrectOutputSchemaSource, [], []⟩
      | c :: _ =>
        match store c with
        | none => ⟨ResolveResult.fatal FatalMsg.incorrectOutputSchemaSource, [], []⟩
        | some schemaDefiner =>
          if 0 ≤ schemaDefiner.validOutputColumnCount then
            ⟨ResolveResult.ok schemaDefiner.outputSchema, [], [parent]⟩
          else
            let t := getOutputSchemaLoop store fuel schemaDefiner
            ⟨t.result, t.inlineConsulted, parent :: t.intermediates⟩
    else
      ⟨ResolveResult.fatal FatalMsg.noValidOutputSchema, [], []⟩

/-- `AbstractPlanNode::getOutputSchema` (abstractplannode.cpp:228-290):
a node with `m_validOutputColumnCount >= 0` returns its own schema at
once; otherwise the search loop runs. -/
def PlanNode.getOutputSchema (node : PlanNode) (store : Store) (fuel : Nat) : ResolveTrace :=
  if 0 ≤ node.validOutputColumnCount then ⟨ResolveResult.ok node.outputSchema, [], []⟩
  else getOutputSchemaLoop store fuel node

/-- A search that exhausts every fuel bound: the embedded image of an
infinite `while (true)` loop. -/
def divergesOn (store : Store) (node : PlanNode) : Prop :=
  ∀ fuel : Nat, (node.getOutputSchema store fuel).result = ResolveResult.outOfFuel

/-- A one-node first-child cycle: the node delegates to its first child,
which is itself (a malformed plan the external linker could produce). -/
def cyclicNode : PlanNode :=
  .mk { planNodeId := 0, nodeType := PlanNodeType.seqscan, isInline := false,
        validOutputColumnCount := SCHEMA_UNDEFINED_SO_GET_FROM_CHILD,
        outputSchema := [], childIds := [0], parentIds := [], children := [0] } []

def cyclicStore : Store := fun i => if i = 0 then some cyclicNode else none

/-- A finite malformed first-child chain of length k starting at a
node: the search loop moves through k first-child hops, each continuing
through a stored first child that does not define its own schema, and
ends at a node where the loop goes fatal — an inline-projection
delegator with a missing or non-defining projection, a first-child
delegator with no children or a dangling first child, or a node whose
negative tag is neither recognized magic value. -/
inductive FatalChain (store : Store) : PlanNode → Nat → Prop where
  | inlineMissing (p : PlanNode)
      (h : p.validOutputColumnCount = SCHEMA_UNDEFINED_SO_GET_FROM_INLINE_PROJECTION)
      (hl : p.getInlinePlanNode PLAN_NODE_TYPE_PROJECTION = none) :
      FatalChain store p 0
  | inlineNonDefining (p q : PlanNode)
      (h : p.validOutputColumnCount = SCHEMA_UNDEFINED_SO_GET_FROM_INLINE_PROJECTION)
      (hl : p.getInlinePlanNode PLAN_NODE_TYPE_PROJECTION = some q)
      (hq : q.validOutputColumnCount < 0) :
      FatalChain store p 0
  | noChildren (p : PlanNode)
      (h : p.validOutputColumnCount = SCHEMA_UNDEFINED_SO_GET_FROM_CHILD)
      (hc : p.children = []) :
      FatalChain store p 0
  | danglingChild (p : PlanNode) (c : Nat) (rest : List Nat)
      (h : p.validOutputColumnCount = SCHEMA_UNDEFINED_SO_GET_FROM_CHILD)
      (hc : p.children = c :: rest)
      (hs : store c = none) :
      FatalChain store p 0
  | unrecognizedTag (p : PlanNode)
      (h0 : p.validOutputColumnCount < 0)
      (h1 : p.validOutputColumnCount ≠ SCHEMA_UNDEFINED_SO_GET_FROM_INLINE_PROJECTION)
      (h2 : p.validOutputColumnCount ≠ SCHEMA_UNDEFINED_SO_GET_FROM_CHILD) :
      FatalChain store p 0
  | step (p : PlanNode) (c : Nat) (rest : List Nat) (sd : PlanNode) (k : Nat)
      (h : p.validOutputColumnCount = SCHEMA_UNDEFINED_SO_GET_FROM_CHILD)
      (hc : p.children = c :: rest)
      (hs : store c = some sd)
      (hsd : sd.validOutputColumnCount < 0)
      (hnext : FatalChain store sd k) :
      FatalChain store p (k + 1)

/-- The fixed-layout tuple descriptor built by
`TupleSchema::createTupleSchema`. -/
structure TupleSchema where
  columnTypes : List ValueType
  columnSizes : List Int
  columnAllowNull : List Bool
  allowInlinedObjects : Bool
  deriving DecidableEq, Repr

/-- Modelled from the spec: `TupleSchema::createTupleSchema` (storage
common code, not under src/) bundles the per-column type, size and
null-allowance lists into a table-independent fixed tuple descriptor. -/
def TupleSchema.createTupleSchema (types : List ValueType) (sizes : List Int)
    (allowNull : List Bool) (allowInlined : Bool) : TupleSchema :=
  ⟨types, sizes, allowNull, allowInlined⟩

/-- `AbstractPlanNode::generateDMLCountTupleSchema`
(abstractplannode.cpp:321-330): one BIGINT column of `sizeof(int64_t)`
bytes, not nullable.  The body reads nothing from the invoking node;
the node argument records that very independence. -/
def PlanNode.generateDMLCountTupleSchema (_node : PlanNode) : TupleSchema :=
  TupleSchema.createTupleSchema (List.replicate 1 VALUE_TYPE_BIGINT)
    (List.replicate 1 8) (List.replicate 1 false) true

/-- One entry of a document's output-schema array, carrying what the
`SchemaColumn` constructor reads from it. -/
structure ColumnDoc where
  columnName : String
  exprValueType : ValueType
  exprValueSize : Int
  deriving DecidableEq, Repr

/-- Modelled from the spec: each output-column document decodes into one
owned `SchemaColumn` (the `SchemaColumn(PlannerDomValue)` constructor is
not under src/). -/
def SchemaColumn.ofDoc (d : ColumnDoc) : SchemaColumn :=
  ⟨d.columnName, ⟨d.exprValueType, d.exprValueSize⟩⟩

/-- One node of the planner-produced intermediate-representation
document tree, with the keys `AbstractPlanNode::fromJSONObject` reads:
`PLAN_NODE_TYPE`, `ID`, `INLINE_NODES`, `PARENT_IDS`, `CHILDREN_IDS`,
and the optional `OUTPUT_SCHEMA` array. -/
inductive PlannerDoc where
  | mk (planNodeType : PlanNodeType) (id : Int) (inlineNodes : List PlannerDoc)
       (parentIds : List Int) (childIds : List Int)
       (outputSchema : Option (List ColumnDoc))

def PlannerDoc.outputSchema : PlannerDoc → Option (List ColumnDoc)
  | .mk _ _ _ _ _ os => os

def PlannerDoc.inlineNodes : PlannerDoc → List PlannerDoc
  | .mk _ _ inls _ _ _ => inls

/-- Modelled from the spec/plannodeutil (not under src/): the factory
`getEmptyPlanNode` returns a fresh node of the requested type with all
collections empty. -/
def getEmptyPlanNode (t : PlanNodeType) : PlanNode :=
  .mk { planNodeId := -1, nodeType := t, isInline := false,
        validOutputColumnCount := -1, outputSchema := [],
        childIds := [], parentIds := [], children := [] } []

def PlanNode.setPlanNodeId : PlanNode → Int → PlanNode
  | .mk c l, i => .mk { c with planNodeId := i } l

/-- Record the raw parent-id and child-id integer lists verbatim. -/
def PlanNode.setIdLists : PlanNode → List Int → List Int → PlanNode
  | .mk c l, pids, cids => .mk { c with parentIds := pids, childIds := cids } l

/-- Append the decoded columns to `m_outputSchema` and set
`m_validOutputColumnCount` to the resulting size (the push-back loop and
assignment of abstractplannode.cpp:378-386). -/
def PlanNode.appendOutputSchemaDefined : PlanNode → List SchemaColumn → PlanNode
  | .mk c l, cols =>
    .mk { c with
          outputSchema := c.outputSchema ++ cols
          validOutputColumnCount := Int.ofNat (c.outputSchema ++ cols).length } l

def PlanNode.setValidOutputColumnCount : PlanNode → Int → PlanNode
  | .mk c l, v => .mk { c with validOutputColumnCount := v } l

/-- The tail of `fromJSONObject`: given the node with inline nodes and
id lists already attached, either decode the supplied output-schema
array and mark the node DEFINED_HERE, or mark one of the two delegation
tags (abstractplannode.cpp:377-401). -/
def fromJSONFinish (node2 : PlanNode) (os : Option (List ColumnDoc)) : PlanNode :=
  match os with
  | some cols => node2.appendOutputSchemaDefined (cols.map SchemaColumn.ofDoc)
  | none =>
    if (node2.getInlinePlanNode PLAN_NODE_TYPE_PROJECTION).isSome then
      node2.setValidOutputColumnCount SCHEMA_UNDEFINED_SO_GET_FROM_INLINE_PROJECTION
    else
      node2.setValidOutputColumnCount SCHEMA_UNDEFINED_SO_GET_FROM_CHILD

mutual

/-- `AbstractPlanNode::fromJSONObject` (abstractplannode.cpp:337-409):
build the empty node of the tagged type, attach recursively built
inline nodes, record the raw id lists, then assign the schema-origin
tag by the three-way rule. -/
def fromJSONObject : PlannerDoc → PlanNode
  | .mk t i inls pids cids os =>
    fromJSONFinish
      (((fromJSONList inls).foldl PlanNode.addInlinePlanNode
          ((getEmptyPlanNode t).setPlanNodeId i)).setIdLists pids cids) os

/-- Recursive construction of the `INLINE_NODES` array, in order. -/
def fromJSONList : List PlannerDoc → List PlanNode
  | [] => []
  | d :: ds => fromJSONObject d :: fromJSONList ds

end

/-- Runtime values as the count executor needs them (`NValue`). -/
inductive NValue where
  | bigIntValue (v : Int)
  | nullValue
  deriving DecidableEq, Repr

/-- `ValueFactory::getBigIntValue`: wrap an int64 as a BIGINT value. -/
def ValueFactory.getBigIntValue (v : Int) : NValue := NValue.bigIntValue v

/-- The executor's output table (a `TempTable` behind the `Table`
interface): a column count, the reusable scratch tuple returned by
`tempTuple()`, and the stored rows. -/
structure TempTable where
  columnCount : Nat
  tempTupleStorage : List NValue
  tuples : List (List NValue)
  deriving DecidableEq, Repr

def TempTable.tempTuple (t : TempTable) : List NValue := t.tempTupleStorage

/-- `Table::insertTuple`: append a copy of the row to the table. -/
def TempTable.insertTuple (t : TempTable) (tup : List NValue) : TempTable :=
  { t with tuples := t.tuples ++ [tup] }

/-- `TableTuple::setNValue`: overwrite the value at a column index. -/
def TableTuple.setNValue (tup : List NValue) (idx : Nat) (v : NValue) : List NValue :=
  tup.set idx v

/-- A persistent (randomly-iterable) target table's diagnostic counters
(`PersistentTable`, storage code not under src/). -/
structure PersistentTable where
  name : String
  activeTupleCount : Nat
  pendingDeleteCount : Nat
  allocatedTupleCount : Nat
  deriving DecidableEq, Repr

/-- Modelled from the spec: the visible row count is the
monotonically-maintained counter excluding rows logically deleted but
not yet reclaimed (`PersistentTable::visibleTupleCount`, storage engine
code not under src/). -/
def PersistentTable.visibleTupleCount (t : PersistentTable) : Nat :=
  t.activeTupleCount - t.pendingDeleteCount

/-- The target table bound to the count node: either a persistent table
(so `dynamic_cast<PersistentTable*>` succeeds) or a streamed-style table
(the cast yields NULL). -/
inductive TargetTable where
  | persistent (t : PersistentTable)
  | streamed (name : String)
  deriving DecidableEq, Repr

/-- `TableCountPlanNode`: the count node's base plan node plus the
fields its executor reads (`getTargetTable`, `getPredicate`). -/
structure TableCountPlanNode where
  base : PlanNode
  targetTable : Option TargetTable
  predicate : Option AbstractExpression

/-- Classification codes of a serializable execution exception
(`VoltEEExceptionType`). -/
inductive VoltEEExceptionType where
  | eeException
  | sqlException
  deriving DecidableEq, Repr

def VOLT_EE_EXCEPTION_TYPE_EEEXCEPTION : VoltEEExceptionType :=
  VoltEEExceptionType.eeException

/-- `SerializableEEException`: a classification plus a human-readable
message. -/
structure SerializableEEException where
  exceptionType : VoltEEExceptionType
  message : String
  deriving DecidableEq, Repr

/-- Named assertion conditions of the count executor's source. -/
inductive AssertCond where
  | targetTableNotNull
  | outputSchemaSizeOne
  | outputColumnCountOne
  | predicateIsNull
  deriving DecidableEq, Repr

/-- How an executor phase can fail: a failed `assert`, a fatal logic
error propagated from schema resolution, a thrown
`SerializableEEException`, or exhaustion of the resolution fuel. -/
inductive ExecError where
  | assertFailed (cond : AssertCond)
  | fatalLogic (msg : FatalMsg)
  | eeException (e : SerializableEEException)
  | outOfFuel
  deriving DecidableEq, Repr

/-- `TableCountExecutor::p_init` (tablecountexecutor.cpp:34-47): assert
the target table is bound, assert the resolved output schema has
exactly one column, then create the temp output table. -/
def TableCountExecutor.p_init (store : Store) (fuel : Nat)
    (node : TableCountPlanNode) : Except ExecError Bool :=
  if node.targetTable.isSome = false then
    Except.error (ExecError.assertFailed AssertCond.targetTableNotNull)
  else
    match (node.base.getOutputSchema store fuel).result with
    | ResolveResult.ok schema =>
        if schema.length = 1 then Except.ok true
        else Except.error (ExecError.assertFailed AssertCond.outputSchemaSizeOne)
    | ResolveResult.fatal msg => Except.error (ExecError.fatalLogic msg)
    | ResolveResult.outOfFuel => Except.error ExecError.outOfFuel

/-- Outcome of one `p_execute` call: the returned or thrown status and
the state of the output table afterwards. -/
structure ExecOutcome where
  result : Except ExecError Bool
  outputTable : TempTable
  deriving Repr

def streamedTableMessage : String := "May not iterate a streamed table."

/-- `TableCountExecutor::p_execute` (tablecountexecutor.cpp:49-80):
assert the output table has one column; if the target is not a
persistent table, throw a `SerializableEEException`; assert there is no
predicate; then write the visible row count as one BIGINT into the
scratch tuple and insert it. -/
def TableCountExecutor.p_execute (node : TableCountPlanNode)
    (output_table : TempTable) : ExecOutcome :=
  if output_table.columnCount ≠ 1 then
    ⟨Except.error (ExecError.assertFailed AssertCond.outputColumnCountOne), output_table⟩
  else
    match node.targetTable with
    | some (TargetTable.persistent target) =>
        if node.predicate.isSome then
          ⟨Except.error (ExecError.assertFailed AssertCond.predicateIsNull), output_table⟩
        else
          let tup := TableTuple.setNValue output_table.tempTuple 0
            (ValueFactory.getBigIntValue (Int.ofNat target.visibleTupleCount))
          ⟨Except.ok true,
           TempTable.insertTuple { output_table with tempTupleStorage := tup } tup⟩
    | _ =>
        ⟨Except.error (ExecError.eeException
            ⟨VOLT_EE_EXCEPTION_TYPE_EEEXCEPTION, streamedTableMessage⟩),
         output_table⟩

/-- Replace the predicate field of a count node (used to state that
`p_init` is independent of the predicate). -/
def TableCountPlanNode.withPredicate (node : TableCountPlanNode)
    (p : Option AbstractExpression) : TableCountPlanNode :=
  { node with predicate := p }

/-! Concrete fixtures used by the witness and counterexample theorems. -/

def emptyStore : Store := fun _ => none

def colA : SchemaColumn := ⟨"CA", ⟨ValueType.bigint, 8⟩⟩

def colB : SchemaColumn := ⟨"CB", ⟨ValueType.integer, 4⟩⟩

/-- A node that defines its own two-column output schema. -/
def wDefinedNode : PlanNode :=
  .mk { planNodeId := 7, nodeType := PlanNodeType.seqscan, isInline := false,
        validOutputColumnCount := 2, outputSchema := [colA, colB],
        childIds := [], parentIds := [], children := [] } []

/-- An inline projection node defining its own one-column schema. -/
def wProjection : PlanNode :=
  .mk { planNodeId := 8, nodeType := PlanNodeType.projection, isInline := true,
        validOutputColumnCount := 1, outputSchema := [colA],
        childIds := [], parentIds := [], children := [] } []

/-- A node delegating its output schema to its inline projection. -/
def wInlineHost : PlanNode :=
  .mk { planNodeId := 9, nodeType := PlanNodeType.seqscan, isInline := false,
        validOutputColumnCount := SCHEMA_UNDEFINED_SO_GET_FROM_INLINE_PROJECTION,
        outputSchema := [], childIds := [], parentIds := [], children := [] }
      [(PlanNodeType.projection, wProjection)]

/-- A schema-defining node sitting at heap address 2. -/
def wChildDefiner : PlanNode :=
  .mk { planNodeId := 2, nodeType := PlanNodeType.seqscan, isInline := false,
        validOutputColumnCount := 1, outputSchema := [colA],
        childIds := [], parentIds := [], children := [] } []

/-- A node at heap address 1 delegating to its first child at address 2. -/
def wDelegator : PlanNode :=
  .mk { planNodeId := 1, nodeType := PlanNodeType.limit, isInline := false,
        validOutputColumnCount := SCHEMA_UNDEFINED_SO_GET_FROM_CHILD,
        outputSchema := [], childIds := [2], parentIds := [], children := [2] } []

def wStore : Store := fun i =>
  if i = 1 then some wDelegator else if i = 2 then some wChildDefiner else none

/-- A first-child delegator with no children at all (malformed plan). -/
def wChildlessDelegator : PlanNode :=
  .mk { planNodeId := 12, nodeType := PlanNodeType.limit, isInline := false,
        validOutputColumnCount := SCHEMA_UNDEFINED_SO_GET_FROM_CHILD,
        outputSchema := [], childIds := [], parentIds := [], children := [] } []

/-- An inline-projection delegator with no inline projection at all,
sitting at heap address 13 (malformed plan). -/
def wBrokenInlineHost : PlanNode :=
  .mk { planNodeId := 13, nodeType := PlanNodeType.seqscan, isInline := false,
        validOutputColumnCount := SCHEMA_UNDEFINED_SO_GET_FROM_INLINE_PROJECTION,
        outputSchema := [], childIds := [], parentIds := [], children := [] } []

/-- A first-child delegator at address 14 whose chain ends, one hop
deeper, at the broken inline-projection delegator. -/
def wDeepDelegator : PlanNode :=
  .mk { planNodeId := 14, nodeType := PlanNodeType.limit, isInline := false,
        validOutputColumnCount := SCHEMA_UNDEFINED_SO_GET_FROM_CHILD,
        outputSchema := [], childIds := [13], parentIds := [], children := [13] } []

def wMalformedStore : Store := fun i =>
  if i = 14 then some wDeepDelegator
  else if i = 13 then some wBrokenInlineHost else none

def colDocA : ColumnDoc := ⟨"CA", ValueType.bigint, 8⟩

/-- A document that supplies an explicit one-column output schema. -/
def docWithSchema : PlannerDoc :=
  .mk PlanNodeType.seqscan 3 [] [] [] (some [colDocA])

/-- A projection document defining its own schema. -/
def docProjection : PlannerDoc :=
  .mk PlanNodeType.projection 4 [] [] [] (some [colDocA])

/-- A document with no output schema but an inline projection child. -/
def docWithInlineProjection : PlannerDoc :=
  .mk PlanNodeType.seqscan 5 [docProjection] [] [] none

/-- A document with neither an output schema nor an inline projection. -/
def docBare : PlannerDoc :=
  .mk PlanNodeType.limit 6 [] [10] [11] none

/-- A persistent table with 1000 active rows of which 3 are deleted but
not yet reclaimed. -/
def bigTable : PersistentTable := ⟨"T", 1000, 3, 1200⟩

/-- A persistent table with no visible rows. -/
def emptyPersistentTable : PersistentTable := ⟨"E", 0, 0, 0⟩

/-- The count node's base plan node: one defined output column. -/
def countBase : PlanNode :=
  .mk { planNodeId := 20, nodeType := PlanNodeType.tablecount, isInline := false,
        validOutputColumnCount := 1, outputSchema := [colA],
        childIds := [], parentIds := [], children := [] } []

def countNodeBig : TableCountPlanNode :=
  ⟨countBase, some (TargetTable.persistent bigTable), none⟩

def countNodeEmpty : TableCountPlanNode :=
  ⟨countBase, some (TargetTable.persistent emptyPersistentTable), none⟩

def countNodeStreamed : TableCountPlanNode :=
  ⟨countBase, some (TargetTable.streamed "S"), none⟩

/-- A count node whose base defines two output columns, violating the
one-column structural precondition of the count executor. -/
def countNodeTwoColumns : TableCountPlanNode :=
  ⟨wDefinedNode, some (TargetTable.persistent bigTable), none⟩

/-- A residual filter predicate that the count operator does not support. -/
def wPredicate : AbstractExpression := ⟨ValueType.bigint, 8⟩

/-- A count node carrying a residual predicate but an otherwise valid
one-column schema and persistent target. -/
def countNodeWithPredicate : TableCountPlanNode :=
  ⟨countBase, some (TargetTable.persistent bigTable), some wPredicate⟩

/-- A fresh one-column output table as `setTempOutputTable` creates it. -/
def freshOut : TempTable := ⟨1, [NValue.nullValue], []⟩

/-- A host node with an empty inline mapping. -/
def wHost : PlanNode :=
  .mk { planNodeId := 30, nodeType := PlanNodeType.send, isInline := false,
        validOutputColumnCount := SCHEMA_UNDEFINED_SO_GET_FROM_CHILD,
        outputSchema := [], childIds := [], parentIds := [], children := [40] } []

/-- A first inline limit node. -/
def wInlineLimitOld : PlanNode :=
  .mk { planNodeId := 31, nodeType := PlanNodeType.limit, isInline := false,
        validOutputColumnCount := SCHEMA_UNDEFINED_SO_GET_FROM_CHILD,
        outputSchema := [], childIds := [], parentIds := [], children := [] } []

/-- A second inline limit node of the same type, replacing the first. -/
def wInlineLimitNew : PlanNode :=
  .mk { planNodeId := 32, nodeType := PlanNodeType.limit, isInline := false,
        validOutputColumnCount := SCHEMA_UNDEFINED_SO_GET_FROM_CHILD,
        outputSchema := [], childIds := [], parentIds := [], children := [] } []

/-! Helper lemmas about the embedded operations. -/

@[simp]
theorem PlanNode.core_addInlinePlanNode (h m : PlanNode) :
    (h.addInlinePlanNode m).core = h.core := by
  cases h
  rfl

@[simp]
theorem PlanNode.core_setIdLists (n : PlanNode) (p c : List Int) :
    (n.setIdLists p c).core = { n.core with parentIds := p, childIds := c } := by
  cases n
  rfl

@[simp]
theorem PlanNode.core_setPlanNodeId (n : PlanNode) (i : Int) :
    (n.setPlanNodeId i).core = { n.core with planNodeId := i } := by
  cases n
  rfl

theorem PlanNode.core_foldl_addInlinePlanNode :
    ∀ (l : List PlanNode) (h : PlanNode),
      (l.foldl PlanNode.addInlinePlanNode h).core = h.core := by
  intro l
  induction l with
  | nil => intro h; rfl
  | cons x xs ih =>
      intro h
      simpa [List.foldl_cons] using ih (h.addInlinePlanNode x)

@[simp]
theorem PlanNode.validOutputColumnCount_append (n : PlanNode) (cols : List SchemaColumn) :
    (n.appendOutputSchemaDefined cols).validOutputColumnCount
      = Int.ofNat (n.outputSchema ++ cols).length := by
  cases n
  rfl

@[simp]
theorem PlanNode.outputSchema_append (n : PlanNode) (cols : List SchemaColumn) :
    (n.appendOutputSchemaDefined cols).outputSchema = n.outputSchema ++ cols := by
  cases n
  rfl

@[simp]
theorem PlanNode.validOutputColumnCount_setValid (n : PlanNode) (v : Int) :
    (n.setValidOutputColumnCount v).validOutputColumnCount = v := by
  cases n
  rfl

@[simp]
theorem PlanNode.getInlinePlanNode_setValid (n : PlanNode) (v : Int) (t : PlanNodeType) :
    (n.setValidOutputColumnCount v).getInlinePlanNode t = n.getInlinePlanNode t := by
  cases n
  rfl

@[simp]
theorem PlanNode.isInline_setIsInline (m : PlanNode) (b : Bool) :
    (m.setIsInline b).isInline = b := by
  cases m
  rfl

@[simp]
theorem PlanNode.getPlanNodeType_setIsInline (m : PlanNode) (b : Bool) :
    (m.setIsInline b).getPlanNodeType = m.getPlanNodeType := by
  cases m
  rfl

theorem lookupInlineEntry_insert_self :
    ∀ (l : List (PlanNodeType × PlanNode)) (k : PlanNodeType) (v : PlanNode),
      lookupInlineEntry k (insertInlineEntry k v l) = some v := by
  intro l
  induction l with
  | nil => intro k v; simp [insertInlineEntry, lookupInlineEntry]
  | cons hd tl ih =>
      intro k v
      obtain ⟨k', v'⟩ := hd
      by_cases hk : k = k'
      · simp [insertInlineEntry, hk, lookupInlineEntry]
      · have hk2 : ¬ (k' = k) := fun hEq => hk hEq.symm
        simp [insertInlineEntry, hk, lookupInlineEntry, hk2]
        exact ih k v

theorem lookupInlineEntry_of_not_mem_keys :
    ∀ (l : List (PlanNodeType × PlanNode)) (k : PlanNodeType),
      k ∉ l.map Prod.fst → lookupInlineEntry k l = none := by
  intro l
  induction l with
  | nil => intro k _; rfl
  | cons hd tl ih =>
      intro k hk
      obtain ⟨k', v'⟩ := hd
      simp only [List.map_cons, List.mem_cons] at hk
      push_neg at hk
      have : ¬ (k' = k) := fun h => hk.1 h.symm
      simp [lookupInlineEntry, this]
      exact ih k hk.2

theorem tag_child_ne_inline :
    ¬ (SCHEMA_UNDEFINED_SO_GET_FROM_CHILD
        = SCHEMA_UNDEFINED_SO_GET_FROM_INLINE_PROJECTION) := by
  decide

theorem tag_inline_not_nonneg :
    ¬ (0 ≤ SCHEMA_UNDEFINED_SO_GET_FROM_INLINE_PROJECTION) := by
  decide

theorem tag_child_not_nonneg :
    ¬ (0 ≤ SCHEMA_UNDEFINED_SO_GET_FROM_CHILD) := by
  decide

/-- Tag discipline of the search loop: every node whose inline mapping
is consulted carries the inline-projection tag, and every node moved
past as an intermediate first-child hop carries the first-child tag. -/
theorem getOutputSchemaLoop_trace_tags (store : Store) :
    ∀ (fuel : Nat) (p : PlanNode),
      (∀ n ∈ (getOutputSchemaLoop store fuel p).inlineConsulted,
          n.validOutputColumnCount = SCHEMA_UNDEFINED_SO_GET_FROM_INLINE_PROJECTION) ∧
      (∀ n ∈ (getOutputSchemaLoop store fuel p).intermediates,
          n.validOutputColumnCount = SCHEMA_UNDEFINED_SO_GET_FROM_CHILD) := by
  intro fuel
  induction fuel with
  | zero =>
      intro p
      constructor <;> intro n hn <;> simp [getOutputSchemaLoop] at hn
  | succ k ih =>
      intro p
      by_cases h1 : p.validOutputColumnCount = SCHEMA_UNDEFINED_SO_GET_FROM_INLINE_PROJECTION
      · constructor
        · intro n hn
          rcases hlook : p.getInlinePlanNode PLAN_NODE_TYPE_PROJECTION with _ | q
          · simp [getOutputSchemaLoop, h1, hlook] at hn
            rw [hn]
            exact h1
          · by_cases h2 : 0 ≤ q.validOutputColumnCount
            · simp [getOutputSchemaLoop, h1, hlook, h2] at hn
              rw [hn]
              exact h1
            · simp [getOutputSchemaLoop, h1, hlook, h2] at hn
              rw [hn]
              exact h1
        · intro n hn
          rcases hlook : p.getInlinePlanNode PLAN_NODE_TYPE_PROJECTION with _ | q
          · simp [getOutputSchemaLoop, h1, hlook] at hn
          · by_cases h2 : 0 ≤ q.validOutputColumnCount
            · simp [getOutputSchemaLoop, h1, hlook, h2] at hn
            · simp [getOutputSchemaLoop, h1, hlook, h2] at hn
      · by_cases h2 : p.validOutputColumnCount = SCHEMA_UNDEFINED_SO_GET_FROM_CHILD
        · rcases hch : p.children with _ | ⟨c, rest⟩
          · constructor <;> intro n hn <;>
              simp [getOutputSchemaLoop, h1, h2, hch, tag_child_ne_inline] at hn
          · rcases hst : store c with _ | sd
            · constructor <;> intro n hn <;>
                simp [getOutputSchemaLoop, h1, h2, hch, hst, tag_child_ne_inline] at hn
            · by_cases h3 : 0 ≤ sd.validOutputColumnCount
              · constructor
                · intro n hn
                  simp [getOutputSchemaLoop, h1, h2, hch, hst, h3,
                        tag_child_ne_inline] at hn
                · intro n hn
                  simp [getOutputSchemaLoop, h1, h2, hch, hst, h3,
                        tag_child_ne_inline] at hn
                  rw [hn]
                  exact h2
              · constructor
                · intro n hn
                  simp [getOutputSchemaLoop, h1, h2, hch, hst, h3,
                        tag_child_ne_inline] at hn
                  exact (ih sd).1 n hn
                · intro n hn
                  simp [getOutputSchemaLoop, h1, h2, hch, hst, h3,
                        tag_child_ne_inline] at hn
                  rcases hn with hn | hn
                  · rw [hn]; exact h2
                  · exact (ih sd).2 n hn
        · constructor <;> intro n hn <;> simp [getOutputSchemaLoop, h1, h2] at hn

/-- One loop iteration on the one-node cycle consumes one unit of fuel
and returns to the same node. -/
theorem getOutputSchemaLoop_cyclic_result :
    ∀ fuel : Nat,
      (getOutputSchemaLoop cyclicStore fuel cyclicNode).result
        = ResolveResult.outOfFuel := by
  intro fuel
  induction fuel with
  | zero => rfl
  | succ k ih => exact ih

/-! Claim theorems. -/

/-- C1: for every plan node whose schema-origin tag is DEFINED_HERE(n)
(`m_validOutputColumnCount >= 0`), `getOutputSchema` returns exactly
that node's own sequence of n SchemaColumn entries, unchanged and in
order. -/
theorem getOutputSchema_defined_here (store : Store) (fuel : Nat) (node : PlanNode)
    (n : Nat) (hcount : node.validOutputColumnCount = Int.ofNat n)
    (hlen : node.outputSchema.length = n) :
    (node.getOutputSchema store fuel).result = ResolveResult.ok node.outputSchema ∧
    node.outputSchema.length = n := by
  have hpos : 0 ≤ node.validOutputColumnCount := by
    rw [hcount]
    exact Int.ofNat_nonneg n
  exact ⟨by simp [PlanNode.getOutputSchema, hpos], hlen⟩

/-- Witness for C1: a node with two defined columns resolves to its own
two-column schema. -/
theorem getOutputSchema_defined_here_witness :
    (wDefinedNode.getOutputSchema emptyStore 1).result
      = ResolveResult.ok wDefinedNode.outputSchema ∧
    wDefinedNode.outputSchema.length = 2 :=
  getOutputSchema_defined_here emptyStore 1 wDefinedNode 2 rfl rfl

/-- C2: for every plan node tagged DELEGATE_TO_INLINE_PROJECTION,
resolution returns the schema owned by the node's inline projection
node; a missing inline projection, or an inline projection that does
not itself carry DEFINED_HERE, is a fatal abort rather than a
recoverable error. -/
theorem getOutputSchema_inline_projection (store : Store) (fuel : Nat) (node : PlanNode)
    (h : node.validOutputColumnCount = SCHEMA_UNDEFINED_SO_GET_FROM_INLINE_PROJECTION)
    (hf : 0 < fuel) :
    (node.getInlinePlanNode PLAN_NODE_TYPE_PROJECTION = none →
        ((node.getOutputSchema store fuel).result).isFatal = true) ∧
    (∀ p, node.getInlinePlanNode PLAN_NODE_TYPE_PROJECTION = some p →
        (0 ≤ p.validOutputColumnCount →
          (node.getOutputSchema store fuel).result = ResolveResult.ok p.outputSchema) ∧
        (p.validOutputColumnCount < 0 →
          ((node.getOutputSchema store fuel).result).isFatal = true)) := by
  have hneg : ¬ 0 ≤ node.validOutputColumnCount := by
    rw [h]
    decide
  obtain ⟨k, rfl⟩ : ∃ k, fuel = k + 1 :=
    ⟨fuel - 1, (Nat.succ_pred_eq_of_pos hf).symm⟩
  constructor
  · intro hnone
    simp [PlanNode.getOutputSchema, hneg, getOutputSchemaLoop, h, hnone,
          tag_inline_not_nonneg, ResolveResult.isFatal]
  · intro p hp
    constructor
    · intro hge
      simp [PlanNode.getOutputSchema, hneg, getOutputSchemaLoop, h, hp, hge,
            tag_inline_not_nonneg]
    · intro hlt
      have hnge : ¬ 0 ≤ p.validOutputColumnCount := Int.not_le.mpr hlt
      simp [PlanNode.getOutputSchema, hneg, getOutputSchemaLoop, h, hp, hnge,
            tag_inline_not_nonneg, ResolveResult.isFatal]

/-- Witness for C2: a host with an inline projection resolves to the
projection's own one-column schema. -/
theorem getOutputSchema_inline_projection_witness :
    wInlineHost.validOutputColumnCount
      = SCHEMA_UNDEFINED_SO_GET_FROM_INLINE_PROJECTION ∧
    (wInlineHost.getOutputSchema emptyStore 1).result
      = ResolveResult.ok wProjection.outputSchema :=
  ⟨rfl,
   ((getOutputSchema_inline_projection emptyStore 1 wInlineHost rfl (by decide)).2
      wProjection rfl).1 (by decide)⟩


/-- Counterexample for C3: on a one-node first-child cycle the
resolution loop never detects the unresolvable case — for every fuel
bound it is still running (the C++ `while (true)` loop is infinite),
instead of failing fatally. -/
theorem cyclic_first_child_chain_diverges :
    cyclicNode.validOutputColumnCount = SCHEMA_UNDEFINED_SO_GET_FROM_CHILD ∧
    divergesOn cyclicStore cyclicNode := by
  refine ⟨rfl, ?_⟩
  intro fuel
  show (cyclicNode.getOutputSchema cyclicStore fuel).result = ResolveResult.outOfFuel
  rw [PlanNode.getOutputSchema, if_neg (by decide)]
  exact getOutputSchemaLoop_cyclic_result fuel

/-- The root of every finite malformed first-child chain carries a
negative schema-origin tag, so the search loop is actually entered. -/
theorem fatalChain_count_neg (store : Store) (p : PlanNode) (k : Nat)
    (h : FatalChain store p k) : p.validOutputColumnCount < 0 := by
  cases h with
  | inlineMissing p h hl => rw [h]; decide
  | inlineNonDefining p q h hl hq => rw [h]; decide
  | noChildren p h hc => rw [h]; decide
  | danglingChild p c rest h hc hs => rw [h]; decide
  | unrecognizedTag p h0 h1 h2 => exact h0
  | step p c rest sd k h hc hs hsd hnext => rw [h]; decide

/-- The search loop fails fatally on every finite malformed first-child
chain, within fuel exceeding the chain length. -/
theorem fatalChain_loop_fatal (store : Store) :
    ∀ (p : PlanNode) (k : Nat), FatalChain store p k →
      ∀ fuel : Nat, k < fuel →
        ((getOutputSchemaLoop store fuel p).result).isFatal = true := by
  intro p k hchain
  induction hchain with
  | inlineMissing p h hl =>
      intro fuel hf
      obtain ⟨m, rfl⟩ : ∃ m, fuel = m + 1 :=
        ⟨fuel - 1, (Nat.succ_pred_eq_of_pos hf).symm⟩
      simp [getOutputSchemaLoop, h, hl, ResolveResult.isFatal]
  | inlineNonDefining p q h hl hq =>
      intro fuel hf
      obtain ⟨m, rfl⟩ : ∃ m, fuel = m + 1 :=
        ⟨fuel - 1, (Nat.succ_pred_eq_of_pos hf).symm⟩
      have hnge : ¬ 0 ≤ q.validOutputColumnCount := Int.not_le.mpr hq
      simp [getOutputSchemaLoop, h, hl, hnge, ResolveResult.isFatal]
  | noChildren p h hc =>
      intro fuel hf
      obtain ⟨m, rfl⟩ : ∃ m, fuel = m + 1 :=
        ⟨fuel - 1, (Nat.succ_pred_eq_of_pos hf).symm⟩
      simp [getOutputSchemaLoop, h, hc, tag_child_ne_inline, ResolveResult.isFatal]
  | danglingChild p c rest h hc hs =>
      intro fuel hf
      obtain ⟨m, rfl⟩ : ∃ m, fuel = m + 1 :=
        ⟨fuel - 1, (Nat.succ_pred_eq_of_pos hf).symm⟩
      simp [getOutputSchemaLoop, h, hc, hs, tag_child_ne_inline,
            ResolveResult.isFatal]
  | unrecognizedTag p h0 h1 h2 =>
      intro fuel hf
      obtain ⟨m, rfl⟩ : ∃ m, fuel = m + 1 :=
        ⟨fuel - 1, (Nat.succ_pred_eq_of_pos hf).symm⟩
      simp [getOutputSchemaLoop, h1, h2, ResolveResult.isFatal]
  | step p c rest sd k h hc hs hsd hnext ih =>
      intro fuel hf
      obtain ⟨m, rfl⟩ : ∃ m, fuel = m + 1 :=
        ⟨fuel - 1, (Nat.succ_pred_eq_of_pos (Nat.lt_of_le_of_lt (Nat.zero_le _) hf)).symm⟩
      have hm : k < m := Nat.lt_of_succ_lt_succ hf
      have hnge : ¬ 0 ≤ sd.validOutputColumnCount := Int.not_le.mpr hsd
      have hres := ih m hm
      simpa [getOutputSchemaLoop, h, hc, hs, hnge, tag_child_ne_inline]
        using hres

/-- C3 (amended): resolution fails fatally, rather than looping, on
every finite malformed first-child chain — any number of first-child
hops ending at a delegator with no children or a dangling first child,
at a missing or non-defining inline projection, or at an unrecognized
tag — within fuel exceeding the chain length; but on a cyclic
first-child chain the search loop never terminates, exhausting every
fuel bound instead of deterministically detecting the cycle. -/
theorem first_child_resolution_fatal_or_divergent :
    (∀ (store : Store) (p : PlanNode) (k fuel : Nat),
        FatalChain store p k → k < fuel →
        ((p.getOutputSchema store fuel).result).isFatal = true) ∧
    (∃ (store : Store) (node : PlanNode),
        node.validOutputColumnCount = SCHEMA_UNDEFINED_SO_GET_FROM_CHILD ∧
        ∀ fuel : Nat,
          (node.getOutputSchema store fuel).result = ResolveResult.outOfFuel) := by
  constructor
  · intro store p k fuel hchain hf
    have hneg : ¬ 0 ≤ p.validOutputColumnCount :=
      Int.not_le.mpr (fatalChain_count_neg store p k hchain)
    rw [PlanNode.getOutputSchema, if_neg hneg]
    exact fatalChain_loop_fatal store p k hchain fuel hf
  · refine ⟨cyclicStore, cyclicNode, rfl, ?_⟩
    intro fuel
    show (cyclicNode.getOutputSchema cyclicStore fuel).result = ResolveResult.outOfFuel
    rw [PlanNode.getOutputSchema, if_neg (by decide)]
    exact getOutputSchemaLoop_cyclic_result fuel

/-- Witness for the amended C3: the depth-0 childless delegator and a
depth-1 chain ending at a missing inline projection both fail fatally. -/
theorem first_child_resolution_fatal_witness :
    ((wChildlessDelegator.getOutputSchema emptyStore 1).result).isFatal = true ∧
    ((wDeepDelegator.getOutputSchema wMalformedStore 2).result).isFatal = true := by
  constructor
  · exact first_child_resolution_fatal_or_divergent.1 emptyStore
      wChildlessDelegator 0 1 (FatalChain.noChildren wChildlessDelegator rfl rfl)
      (by decide)
  · exact first_child_resolution_fatal_or_divergent.1 wMalformedStore
      wDeepDelegator 1 2
      (FatalChain.step wDeepDelegator 13 [] wBrokenInlineHost 0 rfl rfl rfl
        (by decide) (FatalChain.inlineMissing wBrokenInlineHost rfl rfl))
      (by decide)

/-- C4: during resolution of a first-child delegation chain, a node
reached as an intermediate first-child hop (one the cursor moved past
to its own first child) never has its inline-node mapping consulted. -/
theorem intermediate_hops_never_consult_inline (store : Store) (fuel : Nat)
    (node n : PlanNode)
    (hmem : n ∈ (node.getOutputSchema store fuel).intermediates) :
    n ∉ (node.getOutputSchema store fuel).inlineConsulted := by
  intro hcon
  by_cases h0 : 0 ≤ node.validOutputColumnCount
  · rw [PlanNode.getOutputSchema, if_pos h0] at hmem
    simp at hmem
  · rw [PlanNode.getOutputSchema, if_neg h0] at hmem hcon
    have h1 := (getOutputSchemaLoop_trace_tags store fuel node).1 n hcon
    have h2 := (getOutputSchemaLoop_trace_tags store fuel node).2 n hmem
    rw [h1] at h2
    exact absurd h2.symm tag_child_ne_inline

/-- Witness for C4: in the two-node chain the delegator is an
intermediate hop and its inline mapping is untouched. -/
theorem intermediate_hops_witness :
    wDelegator ∉ (wDelegator.getOutputSchema wStore 3).inlineConsulted := by
  have hmem : wDelegator ∈ (wDelegator.getOutputSchema wStore 3).intermediates := by
    show wDelegator ∈ [wDelegator]
    exact List.mem_singleton_self wDelegator
  exact intermediate_hops_never_consult_inline wStore 3 wDelegator wDelegator hmem

/-- C5: `fromJSONObject` assigns the schema-origin tag by exactly the
three-way rule — a supplied output-schema array yields DEFINED_HERE
with one SchemaColumn per entry and count equal to the array length;
otherwise an inline projection yields DELEGATE_TO_INLINE_PROJECTION;
otherwise DELEGATE_TO_FIRST_CHILD. -/
theorem fromJSONObject_schema_origin_rule (d : PlannerDoc) :
    (∀ cols, d.outputSchema = some cols →
        (fromJSONObject d).validOutputColumnCount = Int.ofNat cols.length ∧
        (fromJSONObject d).outputSchema = cols.map SchemaColumn.ofDoc) ∧
    (d.outputSchema = none →
        (((fromJSONObject d).getInlinePlanNode PLAN_NODE_TYPE_PROJECTION).isSome →
            (fromJSONObject d).validOutputColumnCount
              = SCHEMA_UNDEFINED_SO_GET_FROM_INLINE_PROJECTION) ∧
        ((fromJSONObject d).getInlinePlanNode PLAN_NODE_TYPE_PROJECTION = none →
            (fromJSONObject d).validOutputColumnCount
              = SCHEMA_UNDEFINED_SO_GET_FROM_CHILD)) := by
  obtain ⟨t, i, inls, pids, cids, os⟩ := d
  have hunfold : fromJSONObject (PlannerDoc.mk t i inls pids cids os)
      = fromJSONFinish (((fromJSONList inls).foldl PlanNode.addInlinePlanNode
          ((getEmptyPlanNode t).setPlanNodeId i)).setIdLists pids cids) os := rfl
  have hbase :
      ((((fromJSONList inls).foldl PlanNode.addInlinePlanNode
          ((getEmptyPlanNode t).setPlanNodeId i)).setIdLists pids cids)).outputSchema
        = [] := by
    show ((((fromJSONList inls).foldl PlanNode.addInlinePlanNode
        ((getEmptyPlanNode t).setPlanNodeId i)).setIdLists
          pids cids)).core.outputSchema = []
    rw [PlanNode.core_setIdLists]
    show (((fromJSONList inls).foldl PlanNode.addInlinePlanNode
        ((getEmptyPlanNode t).setPlanNodeId i))).core.outputSchema = []
    rw [PlanNode.core_foldl_addInlinePlanNode]
    rfl
  rw [hunfold]
  revert hbase
  generalize (((fromJSONList inls).foldl PlanNode.addInlinePlanNode
      ((getEmptyPlanNode t).setPlanNodeId i)).setIdLists pids cids) = X
  intro hbase
  cases os with
  | some cs =>
      constructor
      · intro cols hcols
        have hc : cs = cols := Option.some.inj hcols
        cases hc
        have hfin : fromJSONFinish X (some cs)
            = X.appendOutputSchemaDefined (cs.map SchemaColumn.ofDoc) := rfl
        rw [hfin]
        constructor
        · rw [PlanNode.validOutputColumnCount_append, hbase]
          simp
        · rw [PlanNode.outputSchema_append, hbase]
          simp
      · intro hos
        exact Option.noConfusion hos
  | none =>
      constructor
      · intro cols hcols
        exact Option.noConfusion hcols
      · intro _
        have hfin : fromJSONFinish X none
            = if (X.getInlinePlanNode PLAN_NODE_TYPE_PROJECTION).isSome then
                X.setValidOutputColumnCount
                  SCHEMA_UNDEFINED_SO_GET_FROM_INLINE_PROJECTION
              else
                X.setValidOutputColumnCount SCHEMA_UNDEFINED_SO_GET_FROM_CHILD := rfl
        rw [hfin]
        rcases hproj : X.getInlinePlanNode PLAN_NODE_TYPE_PROJECTION with _ | q <;>
          simp [hproj]

/-- Witness for C5: the three concrete documents take the three
branches of the rule. -/
theorem fromJSONObject_schema_origin_witness :
    (fromJSONObject docWithSchema).validOutputColumnCount = 1 ∧
    (fromJSONObject docWithSchema).outputSchema = [SchemaColumn.ofDoc colDocA] ∧
    (fromJSONObject docWithInlineProjection).validOutputColumnCount
      = SCHEMA_UNDEFINED_SO_GET_FROM_INLINE_PROJECTION ∧
    (fromJSONObject docBare).validOutputColumnCount
      = SCHEMA_UNDEFINED_SO_GET_FROM_CHILD := by
  have h1 := (fromJSONObject_schema_origin_rule docWithSchema).1 [colDocA] rfl
  have h2 := (fromJSONObject_schema_origin_rule docWithInlineProjection).2 rfl
  have h3 := (fromJSONObject_schema_origin_rule docBare).2 rfl
  exact ⟨h1.1, h1.2, h2.1 rfl, h3.2 rfl⟩

theorem list_set_zero_of_length_one (l : List NValue) (h : l.length = 1)
    (v : NValue) : l.set 0 v = [v] := by
  match l, h with
  | [x], _ => rfl

/-- C6: for a persistent (randomly-iterable) target table, one call of
`p_execute` appends exactly one row to the output table, containing the
table's visible row count as an 8-byte integer value. -/
theorem table_count_execute_appends_visible_count
    (node : TableCountPlanNode) (out : TempTable) (target : PersistentTable)
    (ht : node.targetTable = some (TargetTable.persistent target))
    (hp : node.predicate = none)
    (hc : out.columnCount = 1)
    (hl : out.tempTuple.length = 1) :
    (TableCountExecutor.p_execute node out).result = Except.ok true ∧
    (TableCountExecutor.p_execute node out).outputTable.tuples
      = out.tuples
          ++ [[NValue.bigIntValue (target.visibleTupleCount : Int)]] := by
  have hset : out.tempTupleStorage.set 0
        (NValue.bigIntValue (target.visibleTupleCount : Int))
      = [NValue.bigIntValue (target.visibleTupleCount : Int)] :=
    list_set_zero_of_length_one out.tempTupleStorage hl _
  constructor <;>
    simp [TableCountExecutor.p_execute, ht, hp, hc, TableTuple.setNValue,
          TempTable.insertTuple, TempTable.tempTuple, hset,
          ValueFactory.getBigIntValue]

/-- Witness for C6: a table with 1000 active rows of which 3 are
deleted-but-unreclaimed yields one row containing 997, and a table with
0 visible rows yields one row containing 0. -/
theorem table_count_execute_witness :
    (TableCountExecutor.p_execute countNodeBig freshOut).result = Except.ok true ∧
    (TableCountExecutor.p_execute countNodeBig freshOut).outputTable.tuples
      = [[NValue.bigIntValue 997]] ∧
    (TableCountExecutor.p_execute countNodeEmpty freshOut).outputTable.tuples
      = [[NValue.bigIntValue 0]] := by
  have h1 := table_count_execute_appends_visible_count countNodeBig freshOut
    bigTable rfl rfl rfl rfl
  have h2 := table_count_execute_appends_visible_count countNodeEmpty freshOut
    emptyPersistentTable rfl rfl rfl rfl
  refine ⟨h1.1, ?_, ?_⟩
  · rw [h1.2]
    rfl
  · rw [h2.2]
    rfl

/-- C7: invoking `p_execute` with a streaming-only (not
randomly-iterable) target raises a classified serializable execution
exception and leaves the output table unchanged. -/
theorem table_count_execute_streamed_throws
    (node : TableCountPlanNode) (out : TempTable) (s : String)
    (ht : node.targetTable = some (TargetTable.streamed s))
    (hc : out.columnCount = 1) :
    (TableCountExecutor.p_execute node out).result
      = Except.error (ExecError.eeException
          ⟨VOLT_EE_EXCEPTION_TYPE_EEEXCEPTION, streamedTableMessage⟩) ∧
    (TableCountExecutor.p_execute node out).outputTable = out := by
  constructor <;> simp [TableCountExecutor.p_execute, ht, hc]

/-- Witness for C7: the concrete streamed-target node throws and
appends nothing. -/
theorem table_count_execute_streamed_witness :
    (TableCountExecutor.p_execute countNodeStreamed freshOut).result
      = Except.error (ExecError.eeException
          ⟨VOLT_EE_EXCEPTION_TYPE_EEEXCEPTION, streamedTableMessage⟩) ∧
    (TableCountExecutor.p_execute countNodeStreamed freshOut).outputTable
      = freshOut :=
  table_count_execute_streamed_throws countNodeStreamed freshOut "S" rfl rfl

/-- C8: the synthesized DML row-count layout is always exactly one
not-nullable 8-byte BIGINT column, identical for every invoking node
and independent of the node's own schema fields or schema-origin tag;
it never invokes schema resolution. -/
theorem generateDMLCountTupleSchema_fixed_layout (node : PlanNode) :
    (node.generateDMLCountTupleSchema).columnTypes = [VALUE_TYPE_BIGINT] ∧
    (node.generateDMLCountTupleSchema).columnSizes = [8] ∧
    (node.generateDMLCountTupleSchema).columnAllowNull = [false] ∧
    (node.generateDMLCountTupleSchema).columnTypes.length = 1 ∧
    ∀ other : PlanNode,
      node.generateDMLCountTupleSchema = other.generateDMLCountTupleSchema := by
  exact ⟨rfl, rfl, rfl, rfl, fun other => rfl⟩

/-- Counterexample for C9: a count node carrying a residual filter
predicate — violating one of the two claimed structural preconditions —
still passes `p_init` successfully, so init does not validate the
predicate condition. -/
theorem p_init_ignores_predicate_cex :
    countNodeWithPredicate.predicate.isSome = true ∧
    TableCountExecutor.p_init emptyStore 1 countNodeWithPredicate
      = Except.ok true := by
  exact ⟨rfl, rfl⟩

/-- C9 (amended): `p_init` validates the one-output-column structural
precondition — succeeding exactly when the resolved schema has one
column and failing on any other column count — and is entirely
independent of the residual predicate; the no-residual-predicate
condition is instead asserted at the start of `p_execute`, which fails
there (before appending any row) when a predicate is present. -/
theorem p_init_checks_columns_execute_checks_predicate :
    (∀ (store : Store) (fuel : Nat) (node : TableCountPlanNode)
        (p : Option AbstractExpression),
        TableCountExecutor.p_init store fuel node
          = TableCountExecutor.p_init store fuel (node.withPredicate p)) ∧
    (∀ (store : Store) (fuel : Nat) (node : TableCountPlanNode)
        (schema : List SchemaColumn),
        node.targetTable.isSome = true →
        (node.base.getOutputSchema store fuel).result = ResolveResult.ok schema →
        ((schema.length = 1 →
            TableCountExecutor.p_init store fuel node = Except.ok true) ∧
         (¬ schema.length = 1 →
            TableCountExecutor.p_init store fuel node
              = Except.error
                  (ExecError.assertFailed AssertCond.outputSchemaSizeOne)))) ∧
    (∀ (node : TableCountPlanNode) (out : TempTable) (target : PersistentTable),
        out.columnCount = 1 →
        node.targetTable = some (TargetTable.persistent target) →
        node.predicate.isSome = true →
        (TableCountExecutor.p_execute node out).result
            = Except.error (ExecError.assertFailed AssertCond.predicateIsNull) ∧
        (TableCountExecutor.p_execute node out).outputTable = out) := by
  refine ⟨?_, ?_, ?_⟩
  · intro store fuel node p
    cases node
    rfl
  · intro store fuel node schema ht hres
    constructor
    · intro hlen
      simp [TableCountExecutor.p_init, ht, hres, hlen]
    · intro hlen
      simp [TableCountExecutor.p_init, ht, hres, hlen]
  · intro node out target hc ht hp
    constructor <;> simp [TableCountExecutor.p_execute, hc, ht, hp]

/-- Witness for the amended C9: the one-column node passes init, the
two-column node fails init's column assertion, and the concrete
predicate-carrying node passes init but fails the predicate assertion
in execute, appending no row. -/
theorem p_init_execute_predicate_witness :
    TableCountExecutor.p_init emptyStore 1 countNodeBig = Except.ok true ∧
    TableCountExecutor.p_init emptyStore 1 countNodeTwoColumns
      = Except.error (ExecError.assertFailed AssertCond.outputSchemaSizeOne) ∧
    (TableCountExecutor.p_execute countNodeWithPredicate freshOut).result
      = Except.error (ExecError.assertFailed AssertCond.predicateIsNull) ∧
    (TableCountExecutor.p_execute countNodeWithPredicate freshOut).outputTable
      = freshOut := by
  refine ⟨?_, ?_, ?_, ?_⟩
  · exact (p_init_checks_columns_execute_checks_predicate.2.1 emptyStore 1
      countNodeBig [colA] rfl rfl).1 rfl
  · exact (p_init_checks_columns_execute_checks_predicate.2.1 emptyStore 1
      countNodeTwoColumns [colA, colB] rfl rfl).2 (by decide)
  · exact (p_init_checks_columns_execute_checks_predicate.2.2
      countNodeWithPredicate freshOut bigTable rfl rfl rfl).1
  · exact (p_init_checks_columns_execute_checks_predicate.2.2
      countNodeWithPredicate freshOut bigTable rfl rfl rfl).2

/-- C10: after `addInlinePlanNode(h, m)` the stored node has its
is-inline flag set and is retrievable by m's type; storing a second
node of the same type silently replaces the first so only the new node
is retrievable; and `getInlinePlanNode` on a type with no entry returns
null rather than failing. -/
theorem addInlinePlanNode_getInlinePlanNode_spec :
    (∀ h m : PlanNode,
        (h.addInlinePlanNode m).getInlinePlanNode m.getPlanNodeType
          = some (m.setIsInline true) ∧
        (m.setIsInline true).isInline = true) ∧
    (∀ h mOld m : PlanNode, mOld.getPlanNodeType = m.getPlanNodeType →
        ((h.addInlinePlanNode mOld).addInlinePlanNode m).getInlinePlanNode
            m.getPlanNodeType = some (m.setIsInline true)) ∧
    (∀ (h : PlanNode) (t : PlanNodeType),
        t ∉ h.inlineNodes.map Prod.fst → h.getInlinePlanNode t = none) := by
  refine ⟨?_, ?_, ?_⟩
  · intro h m
    refine ⟨?_, PlanNode.isInline_setIsInline m true⟩
    cases h with
    | mk c l =>
        show lookupInlineEntry m.getPlanNodeType
            (insertInlineEntry m.getPlanNodeType (m.setIsInline true) l)
          = some (m.setIsInline true)
        exact lookupInlineEntry_insert_self l m.getPlanNodeType (m.setIsInline true)
  · intro h mOld m _
    cases h with
    | mk c l =>
        show lookupInlineEntry m.getPlanNodeType
            (insertInlineEntry m.getPlanNodeType (m.setIsInline true)
              (insertInlineEntry mOld.getPlanNodeType (mOld.setIsInline true) l))
          = some (m.setIsInline true)
        exact lookupInlineEntry_insert_self _ m.getPlanNodeType (m.setIsInline true)
  · intro h t hmem
    exact lookupInlineEntry_of_not_mem_keys h.inlineNodes t hmem

/-- Witness for C10: concrete inline-limit nodes are stored, replaced
by type, and a missing type yields null. -/
theorem addInlinePlanNode_witness :
    (wHost.addInlinePlanNode wInlineLimitNew).getInlinePlanNode
        wInlineLimitNew.getPlanNodeType
      = some (wInlineLimitNew.setIsInline true) ∧
    ((wHost.addInlinePlanNode wInlineLimitOld).addInlinePlanNode
        wInlineLimitNew).getInlinePlanNode wInlineLimitNew.getPlanNodeType
      = some (wInlineLimitNew.setIsInline true) ∧
    wHost.getInlinePlanNode PlanNodeType.projection = none := by
  refine ⟨(addInlinePlanNode_getInlinePlanNode_spec.1 wHost wInlineLimitNew).1,
          addInlinePlanNode_getInlinePlanNode_spec.2.1 wHost wInlineLimitOld
            wInlineLimitNew rfl,
          addInlinePlanNode_getInlinePlanNode_spec.2.2 wHost
            PlanNodeType.projection ?_⟩
  intro hmem
  simp [wHost, PlanNode.inlineNodes] at hmem

/-- Witness for C8: the layout evaluated at a concrete node. -/
theorem generateDMLCountTupleSchema_witness :
    (wDefinedNode.generateDMLCountTupleSchema).columnTypes = [VALUE_TYPE_BIGINT] ∧
    (wDefinedNode.generateDMLCountTupleSchema).columnSizes = [8] ∧
    (wDefinedNode.generateDMLCountTupleSchema).columnAllowNull = [false] :=
  ⟨(generateDMLCountTupleSchema_fixed_layout wDefinedNode).1,
   (generateDMLCountTupleSchema_fixed_layout wDefinedNode).2.1,
   (generateDMLCountTupleSchema_fixed_layout wDefinedNode).2.2.1⟩
